import Mathlib

/-!
# Verification of the TabWorker background coordination core

Shallow embedding of `src/core/background/object/tab-worker.js` (the
`TabWorker` class of the web-scrobbler extension background layer), together
with proofs about its tab-lifecycle, message-routing and active-tab-election
behaviour.

Modelling conventions:

* Tab ids are `Int`; the sentinel `tabs.TAB_ID_NONE` is `-1` (`NO_TAB`).
* `this.tabControllers` is a JavaScript array used as a sparse map keyed by
  tab id (`this.tabControllers[tabId]`, `delete this.tabControllers[tabId]`,
  `for (const tabId in this.tabControllers)`).  It is modelled as an
  association list sorted by key in strictly ascending order, which matches
  the ascending numeric-index iteration order of `for..in` on an array.
* The `Controller`, `BrowserAction`, `Inject` and `Options` collaborators are
  external to this core (the spec lists them as collaborators, out of scope).
  They are modelled by the state the worker observes of them: a controller
  carries its tab id, connector, enabled flag, mode classification and opaque
  song/page data; controller mode transitions reach the worker only through
  the `onModeChanged` callback, i.e. through `processControlleModeChange`.
* Methods that can throw in JavaScript (calling a method of `undefined`, or
  calling an undefined method of `this`) return `St × Except JsErr α`: the
  returned state holds all mutations performed before the throw, matching
  JavaScript semantics where a throw does not roll back prior assignments.
-/

/-- `tabs.TAB_ID_NONE` sentinel: "no tab". -/
def NO_TAB : Int := -1

/-- Classification of a controller mode, as consumed by the worker through
`isActiveMode` / `isInactiveMode` from `object/controller-mode`.  That module
is an external collaborator; per the data model the worker only needs the
binary active/inactive classification of a mode. -/
inductive CtrlMode where
  | active
  | inactive
deriving DecidableEq, Repr

/-- `isActiveMode` predicate from `object/controller-mode`. -/
def isActiveMode : CtrlMode → Bool
  | .active => true
  | .inactive => false

/-- `isInactiveMode` predicate from `object/controller-mode`. -/
def isInactiveMode : CtrlMode → Bool
  | .active => false
  | .inactive => true

/-- Connector descriptor: immutable value identifying a site adapter.  The
worker reads its `id` (menu de-duplication) and `label` (menu titles). -/
structure Connector where
  id : Nat
  label : String
deriving DecidableEq, Repr

/-- Observable state of a per-tab `Controller` collaborator instance, i.e.
the fields and getters the worker reads: `tabId`, `getConnector()`,
`isEnabled`, `mode`/`getMode()`, and opaque song/page data behind
`getCurrentSong().getCloneableData()`, `toggleLove`, `setUserSongData`,
`skipCurrentSong`, `resetSongData` and `onStateChanged`. -/
structure Controller where
  tabId : Int
  connector : Connector
  isEnabled : Bool
  mode : CtrlMode
  songData : Nat
  loved : Bool
  userSongData : Option Nat
  skipped : Bool
  pageState : Nat
deriving DecidableEq, Repr

namespace Controller

/-- `ctrl.getMode()`. -/
def getMode (c : Controller) : CtrlMode := c.mode

/-- `ctrl.getConnector()`. -/
def getConnector (c : Controller) : Connector := c.connector

/-- `ctrl.setEnabled(flag)`: the worker-visible effect is the flag change. -/
def setEnabled (c : Controller) (flag : Bool) : Controller :=
  { c with isEnabled := flag }

/-- `ctrl.toggleLove(isLoved)`: records the requested love state on the
current song (external collaborator; worker-visible effect on the instance). -/
def toggleLove (c : Controller) (isLoved : Bool) : Controller :=
  { c with loved := isLoved }

/-- `ctrl.setUserSongData(data)`. -/
def setUserSongData (c : Controller) (data : Nat) : Controller :=
  { c with userSongData := some data }

/-- `ctrl.skipCurrentSong()`. -/
def skipCurrentSong (c : Controller) : Controller :=
  { c with skipped := true }

/-- `ctrl.resetSongData()`. -/
def resetSongData (c : Controller) : Controller :=
  { c with songData := 0, userSongData := none, loved := false }

/-- `ctrl.onStateChanged(data)`: the controller consumes a page-reported
state change.  Mode transitions are delivered to the worker only through the
`onModeChanged` callback, modelled as a separate event. -/
def onStateChanged (c : Controller) (data : Nat) : Controller :=
  { c with pageState := data }

/-- `ctrl.getCurrentSong().getCloneableData()`. -/
def cloneableSongData (c : Controller) : Nat := c.songData

end Controller

/-- JavaScript runtime error escaping a handler. -/
inductive JsErr where
  | typeError (msg : String)
deriving DecidableEq, Repr

/-- A context-menu item created by `addContextMenuItem`, together with the
data captured by its `onclick` closure.  `tabId` is the menu-context tab id
captured by the click wrapper; `ctrlTabId` identifies the captured controller
object (the entry the worker's map held at menu-build time). -/
inductive MenuItem where
  | toggleConnector (tabId : Int) (ctrlTabId : Int) (connId : Nat)
      (label : String) (newState : Bool)
  | disableUntilTabClosed (tabId : Int) (ctrlTabId : Int) (label : String)
deriving DecidableEq, Repr

/-- Observable state of the `BrowserAction` collaborator. -/
inductive BAState where
  | reset
  | updatedFrom (ctrl : Controller)
  | songLoved (isLoved : Bool) (songData : Nat)
deriving DecidableEq, Repr

/-- Result value of `Inject.injectConnector` (`object/inject-result`). -/
inductive InjectResult where
  | injected
  | matched
  | noMatch
deriving DecidableEq, Repr

/-- Data object carried by a request message. -/
structure MsgData where
  isLoved : Bool
  userData : Nat
deriving DecidableEq, Repr

/-- Value returned by `processMessage` (JavaScript `undefined` is `none` at
the call site). -/
inductive RespVal where
  | num (i : Int)
  | boolean (b : Bool)
  | song (d : Nat)
deriving DecidableEq, Repr

/-! ## The sparse tab-controller map -/

/-- `this.tabControllers[tabId]` lookup. -/
def ctrlLookup : List (Int × Controller) → Int → Option Controller
  | [], _ => none
  | (k, c) :: rest, tabId => if k = tabId then some c else ctrlLookup rest tabId

/-- `delete this.tabControllers[tabId]`. -/
def ctrlErase : List (Int × Controller) → Int → List (Int × Controller)
  | [], _ => []
  | (k, c) :: rest, tabId =>
    if k = tabId then ctrlErase rest tabId else (k, c) :: ctrlErase rest tabId

/-- `this.tabControllers[tabId] = ctrl`, keeping keys in ascending order to
mirror the numeric-index iteration order of a JavaScript array. -/
def ctrlInsert : List (Int × Controller) → Int → Controller → List (Int × Controller)
  | [], tabId, c => [(tabId, c)]
  | (k, c0) :: rest, tabId, c =>
    if k = tabId then (tabId, c) :: rest
    else if tabId < k then (tabId, c) :: (k, c0) :: rest
    else (k, c0) :: ctrlInsert rest tabId c

/-! ## The worker state -/

/-- Full observable state of a `TabWorker` instance and of the collaborators
it drives: the tab → controller map, the two distinguished tab ids, the
context menu, the browser action, the connector-enabled settings store
(`Options`), messages sent to tabs, connector-activated notifications, and
the `console.warn` log. -/
structure TabWorker where
  currentTabId : Int
  activeTabId : Int
  tabControllers : List (Int × Controller)
  contextMenu : List MenuItem
  browserAction : BAState
  optionsStore : List (Nat × Bool)
  sentTabMessages : List (Int × String)
  activatedConnectors : List Connector
  warnings : List (String × Int)
deriving DecidableEq, Repr

namespace TabWorker

/-- `this.tabControllers[tabId]`. -/
def getCtrl (w : TabWorker) (tabId : Int) : Option Controller :=
  ctrlLookup w.tabControllers tabId

/-- Store a controller back at its slot (JavaScript mutation of the object
held in the map). -/
def setCtrl (w : TabWorker) (tabId : Int) (c : Controller) : TabWorker :=
  { w with tabControllers := ctrlInsert w.tabControllers tabId c }

/-- `Options.setConnectorEnabled(connector, isEnabled)` on the external
settings store, keyed by connector id. -/
def setOptionEnabled (w : TabWorker) (connId : Nat) (flag : Bool) : TabWorker :=
  { w with optionsStore :=
      (connId, flag) :: (w.optionsStore.filter (fun p => p.1 ≠ connId)) }

/-- `Options.isConnectorEnabled(connector)`: connectors are enabled unless
recorded otherwise. -/
def isConnectorEnabled (w : TabWorker) (connId : Nat) : Bool :=
  match w.optionsStore.find? (fun p => p.1 = connId) with
  | some p => p.2
  | none => true

end TabWorker

/-! ## TabWorker methods (translated from `tab-worker.js`) -/

namespace TabWorker

/-- `resetContextMenu()` (lines 316-318): `contextMenus.removeAll()`. -/
def resetContextMenu (w : TabWorker) : TabWorker :=
  { w with contextMenu := [] }

/-- `addContextMenuItem(tabId, title, onClicked)` (lines 359-373):
`contextMenus.create` appends one item; the click wrapper's behaviour is
modelled by `clickMenuItem` below. -/
def addContextMenuItem (w : TabWorker) (item : MenuItem) : TabWorker :=
  { w with contextMenu := w.contextMenu ++ [item] }

/-- `addToggleConnectorMenu(tabId, ctrl)` (lines 326-335), for the case where
`ctrl` is an actual controller: captures `newState = !ctrl.isEnabled` at
build time. -/
def addToggleConnectorMenuSome (w : TabWorker) (tabId : Int) (c : Controller) :
    TabWorker :=
  let newState := !c.isEnabled
  addContextMenuItem w
    (.toggleConnector tabId c.tabId c.getConnector.id c.getConnector.label newState)

/-- `addToggleConnectorMenu(tabId, ctrl)` (lines 326-335).  At the call site
on line 309, `ctrl` (the active tab's controller) may be `undefined`; reading
`ctrl.getConnector()` then throws a TypeError. -/
def addToggleConnectorMenu (w : TabWorker) (tabId : Int) (ctrl : Option Controller) :
    TabWorker × Except JsErr Unit :=
  match ctrl with
  | none =>
    (w, .error (.typeError "Cannot read properties of undefined (reading getConnector)"))
  | some c => (addToggleConnectorMenuSome w tabId c, .ok ())

/-- `addDisableUntilTabClosedItem(tabId, ctrl)` (lines 343-350). -/
def addDisableUntilTabClosedItem (w : TabWorker) (tabId : Int) (c : Controller) :
    TabWorker :=
  addContextMenuItem w (.disableUntilTabClosed tabId c.tabId c.getConnector.label)

/-- `updateBrowserAction(tabId)` (lines 205-212). -/
def updateBrowserAction (w : TabWorker) (tabId : Int) : TabWorker :=
  match w.getCtrl tabId with
  | some ctrl => { w with browserAction := .updatedFrom ctrl }
  | none => { w with browserAction := .reset }

/-- `shouldUpdateBrowserAction(tabId)` (lines 222-236). -/
def shouldUpdateBrowserAction (w : TabWorker) (tabId : Int) : Bool :=
  let activeCtrl := w.getCtrl w.activeTabId
  if activeCtrl.any (fun c => isActiveMode c.mode) then false
  else
    let ctrl := w.getCtrl tabId
    if ctrl.any (fun c => decide (tabId ≠ w.currentTabId) && isInactiveMode c.mode) then
      false
    else true

/-- The `for (const tabId in this.tabControllers)` loop of `findActiveTabId`
(lines 249-256): first entry (in ascending key order) whose mode is active;
per the NOTE in the source it returns `ctrl.tabId`, not the loop key. -/
def firstActiveCtrlTabId : List (Int × Controller) → Option Int
  | [] => none
  | (_, ctrl) :: rest =>
    if isActiveMode ctrl.getMode then some ctrl.tabId
    else firstActiveCtrlTabId rest

/-- `findActiveTabId()` (lines 243-263). -/
def findActiveTabId (w : TabWorker) : Int :=
  let ctrl := w.getCtrl w.currentTabId
  if ctrl.any (fun c => isActiveMode c.mode) then w.currentTabId
  else
    match firstActiveCtrlTabId w.tabControllers with
    | some tabId => tabId
    | none => if ctrl.isSome then w.currentTabId else NO_TAB

/-- `updateContextMenu(tabId)` (lines 288-311). -/
def updateContextMenu (w : TabWorker) (tabId : Int) : TabWorker × Except JsErr Unit :=
  let w := w.resetContextMenu
  let ctrl := w.getCtrl tabId
  let activeCtrl := w.getCtrl w.activeTabId
  let w :=
    match ctrl with
    | some c =>
      let w := w.addToggleConnectorMenuSome tabId c
      if c.isEnabled then w.addDisableUntilTabClosedItem tabId c else w
    | none => w
  if w.activeTabId ≠ tabId then
    match ctrl, activeCtrl with
    | some c, some ac =>
      if ac.getConnector.id = c.getConnector.id then (w, .ok ())
      else w.addToggleConnectorMenu tabId (some ac)
    | _, _ => w.addToggleConnectorMenu tabId activeCtrl
  else (w, .ok ())

/-- `updateLastActiveTab()` (lines 270-281). -/
def updateLastActiveTab (w : TabWorker) : TabWorker × Except JsErr Unit :=
  let lastActiveTabId := w.findActiveTabId
  if lastActiveTabId ≠ NO_TAB then
    let w := { w with activeTabId := lastActiveTabId }
    let w := w.updateBrowserAction w.activeTabId
    w.updateContextMenu w.activeTabId
  else
    let w := { w with browserAction := .reset }
    (w.resetContextMenu, .ok ())

/-- `setConnectorState(ctrl, isEnabled)` (lines 509-514): `ctrl.setEnabled`
mutates the captured controller object — worker-visible through the map slot
`ctrlTabId` while that entry is live (a detached object's mutation is not
observable through the worker) — and the flag is persisted via
`Options.setConnectorEnabled`. -/
def setConnectorState (w : TabWorker) (ctrlTabId : Int) (connId : Nat)
    (isEnabled : Bool) : TabWorker :=
  let w :=
    match w.getCtrl ctrlTabId with
    | some cur => w.setCtrl ctrlTabId (cur.setEnabled isEnabled)
    | none => w
  w.setOptionEnabled connId isEnabled

/-- `unloadController(tabId)` (lines 493-501): `controller.finish()` tears
down the external instance; the worker-visible effect is the map removal. -/
def unloadController (w : TabWorker) (tabId : Int) : TabWorker :=
  match w.getCtrl tabId with
  | none => w
  | some _ => { w with tabControllers := ctrlErase w.tabControllers tabId }

/-- `createController(tabId, connector)` (lines 472-486).  A fresh external
`Controller` starts with no song, hence in the inactive classification (data
model: inactive = "disabled, no song, or stopped"); its callbacks are wired
to the worker (mode changes arrive via `processModeChangeEvent`). -/
def createController (w : TabWorker) (tabId : Int) (connector : Connector) :
    TabWorker :=
  let isEnabled := w.isConnectorEnabled connector.id
  let ctrl : Controller :=
    { tabId := tabId, connector := connector, isEnabled := isEnabled,
      mode := .inactive, songData := 0, loved := false, userSongData := none,
      skipped := false, pageState := 0 }
  { w with tabControllers := ctrlInsert w.tabControllers tabId ctrl }

/-- `tryToInjectConnector(tabId, connector)` (lines 433-464).  The outcome of
the external `Inject.injectConnector` call is an input of the model. -/
def tryToInjectConnector (w : TabWorker) (tabId : Int) (connector : Connector)
    (result : InjectResult) : TabWorker × Except JsErr Unit :=
  match result with
  | .injected => (w, .ok ())
  | .noMatch =>
    if (w.getCtrl tabId).isSome then
      let w := w.unloadController tabId
      w.updateLastActiveTab
    else (w, .ok ())
  | .matched =>
    let w := w.unloadController tabId
    let w := w.createController tabId connector
    let w :=
      if w.shouldUpdateBrowserAction tabId then w.updateBrowserAction tabId else w
    match w.updateContextMenu tabId with
    | (w, .error e) => (w, .error e)
    | (w, .ok _) =>
      let w :=
        { w with sentTabMessages := w.sentTabMessages ++ [(tabId, "EVENT_READY")] }
      ({ w with activatedConnectors := w.activatedConnectors ++ [connector] }, .ok ())

/-- `processTabUpdate(tabId, url)` (lines 144-147): the connector resolved by
the external `getConnectorByUrl(url)` is an input of the model. -/
def processTabUpdate (w : TabWorker) (tabId : Int) (connector : Connector)
    (result : InjectResult) : TabWorker × Except JsErr Unit :=
  w.tryToInjectConnector tabId connector result

/-- `processTabChange(tabId)` (lines 154-163). -/
def processTabChange (w : TabWorker) (tabId : Int) : TabWorker × Except JsErr Unit :=
  let w := { w with currentTabId := tabId }
  let w :=
    if w.shouldUpdateBrowserAction tabId then
      let w := w.updateBrowserAction tabId
      { w with activeTabId := tabId }
    else w
  w.updateContextMenu tabId

/-- `processTabRemove(removedTabId)` (lines 170-177). -/
def processTabRemove (w : TabWorker) (removedTabId : Int) :
    TabWorker × Except JsErr Unit :=
  let w := w.unloadController removedTabId
  if removedTabId = w.activeTabId then
    let w := { w with activeTabId := NO_TAB }
    w.updateLastActiveTab
  else (w, .ok ())

/-- `processControlleModeChange(ctrl, tabId)` (lines 381-406); the method
name's spelling follows the source. -/
def processControlleModeChange (w : TabWorker) (ctrl : Controller) (tabId : Int) :
    TabWorker × Except JsErr Unit :=
  let mode := ctrl.getMode
  let isCtrlModeInactive := isInactiveMode mode
  if w.activeTabId ≠ tabId then
    if isCtrlModeInactive then (w, .ok ())
    else
      -- this.activeTabId = tabId; isActiveCtrlChanged = true
      let w := { w with activeTabId := tabId }
      match w.updateContextMenu w.currentTabId with
      | (w, .error e) => (w, .error e)
      | (w, .ok _) =>
        if isCtrlModeInactive then (w.updateBrowserAction w.currentTabId, .ok ())
        else (w.updateBrowserAction tabId, .ok ())
  else
    -- isActiveCtrlChanged stays false: no context-menu refresh
    if isCtrlModeInactive then (w.updateBrowserAction w.currentTabId, .ok ())
    else (w.updateBrowserAction tabId, .ok ())

/-- A controller mode-change event: the external controller at `tabId` moves
to `newMode`, and its `onModeChanged` callback — wired by `createController`
(lines 478-480) on live controllers — invokes
`processControlleModeChange(ctrl, tabId)`. -/
def processModeChangeEvent (w : TabWorker) (tabId : Int) (newMode : CtrlMode) :
    TabWorker × Except JsErr Unit :=
  match w.getCtrl tabId with
  | none => (w, .ok ())
  | some c =>
    let c := { c with mode := newMode }
    let w := w.setCtrl tabId c
    w.processControlleModeChange c tabId

/-- `processCommand(command)` (lines 52-73). -/
def processCommand (w : TabWorker) (command : String) :
    TabWorker × Except JsErr Unit :=
  match w.getCtrl w.activeTabId <|> w.getCtrl w.currentTabId with
  | none => (w, .ok ())
  | some ctrl =>
    if command = "toggle-connector" then
      -- Line 61 reads `this.setControllerState(ctrl, !ctrl.isEnabled)`; the
      -- class defines no `setControllerState` method (the toggle helper is
      -- `setConnectorState`, line 509), so the call throws a TypeError.
      (w, .error (.typeError "this.setControllerState is not a function"))
    else if command = "love-song" ∨ command = "unlove-song" then
      let isLoved := command = "love-song"
      let ctrl := ctrl.toggleLove isLoved
      let w := w.setCtrl ctrl.tabId ctrl
      ({ w with browserAction := .songLoved isLoved ctrl.cloneableSongData }, .ok ())
    else (w, .ok ())

/-- `processMessage(tabId, type, data)` (lines 83-117). -/
def processMessage (w : TabWorker) (tabId : Int) (type : String) (data : MsgData) :
    TabWorker × Except JsErr (Option RespVal) :=
  if type = "REQUEST_ACTIVE_TABID" then
    (w, .ok (some (.num w.activeTabId)))
  else
    match w.getCtrl tabId with
    | none =>
      ({ w with warnings := w.warnings ++ [(type, tabId)] }, .ok none)
    | some ctrl =>
      if type = "REQUEST_GET_SONG" then
        (w, .ok (some (.song ctrl.cloneableSongData)))
      else if type = "REQUEST_CORRECT_SONG" then
        (w.setCtrl ctrl.tabId (ctrl.setUserSongData data.userData), .ok none)
      else if type = "REQUEST_TOGGLE_LOVE" then
        (w.setCtrl ctrl.tabId (ctrl.toggleLove data.isLoved),
         .ok (some (.boolean data.isLoved)))
      else if type = "REQUEST_SKIP_SONG" then
        (w.setCtrl ctrl.tabId ctrl.skipCurrentSong, .ok none)
      else if type = "REQUEST_RESET_SONG" then
        (w.setCtrl ctrl.tabId ctrl.resetSongData, .ok none)
      else (w, .ok none)

/-- `processPortMessage(tabId, type, data)` (lines 126-136). -/
def processPortMessage (w : TabWorker) (tabId : Int) (type : String) (data : Nat) :
    TabWorker :=
  if type = "EVENT_STATE_CHANGED" then
    match w.getCtrl tabId with
    | some ctrl => w.setCtrl tabId (ctrl.onStateChanged data)
    | none => w
  else w

/-- The `onclick` wrapper installed by `addContextMenuItem` (lines 360-367):
after the item-specific `onClicked`, rebuild the context menu for the
captured tab id and conditionally refresh the browser action. -/
def menuClickWrapper (w : TabWorker) (tabId : Int) : TabWorker × Except JsErr Unit :=
  match w.updateContextMenu tabId with
  | (w, .error e) => (w, .error e)
  | (w, .ok _) =>
    if w.shouldUpdateBrowserAction tabId then (w.updateBrowserAction tabId, .ok ())
    else (w, .ok ())

/-- Clicking a context-menu item.  A toggle item runs
`setConnectorState(ctrl, newState)` with its captured controller and captured
`newState` (line 332); a disable-until-tab-closed item runs
`ctrl.setEnabled(false)` (line 348).  Then the wrapper runs. -/
def clickMenuItem (w : TabWorker) (item : MenuItem) : TabWorker × Except JsErr Unit :=
  match item with
  | .toggleConnector tabId ctrlTabId connId _label newState =>
    let w := w.setConnectorState ctrlTabId connId newState
    w.menuClickWrapper tabId
  | .disableUntilTabClosed tabId ctrlTabId _label =>
    let w :=
      match w.getCtrl ctrlTabId with
      | some cur => w.setCtrl ctrlTabId (cur.setEnabled false)
      | none => w
    w.menuClickWrapper tabId

/-- `initialize()` (lines 181-198): `getCurrentTab()` may fail on startup, in
which case `currentTabId` is the sentinel; `activeTabId` starts as the
sentinel, the map empty, and the browser action is reset. -/
def initialState (currentTab : Option Int) : TabWorker :=
  { currentTabId := currentTab.getD NO_TAB,
    activeTabId := NO_TAB,
    tabControllers := [],
    contextMenu := [],
    browserAction := .reset,
    optionsStore := [],
    sentTabMessages := [],
    activatedConnectors := [],
    warnings := [] }

end TabWorker

/-! ## Public operations and reachability -/

/-- One public operation on the worker, together with the external inputs
(resolved connector, injection outcome, message payloads, controller mode
transitions, menu clicks) that drive it. -/
inductive Op where
  | tabUpdate (tabId : Int) (connector : Connector) (result : InjectResult)
  | tabChange (tabId : Int)
  | tabRemove (tabId : Int)
  | command (cmd : String)
  | message (tabId : Int) (type : String) (data : MsgData)
  | portMessage (tabId : Int) (type : String) (data : Nat)
  | modeChange (tabId : Int) (newMode : CtrlMode)
  | menuClick (idx : Nat)
deriving DecidableEq, Repr

/-- Apply one public operation; the returned state holds every mutation
performed before a possible throw (JavaScript does not roll back). -/
def applyOp (w : TabWorker) (op : Op) : TabWorker × Except JsErr Unit :=
  match op with
  | .tabUpdate tabId connector result => w.processTabUpdate tabId connector result
  | .tabChange tabId => w.processTabChange tabId
  | .tabRemove tabId => w.processTabRemove tabId
  | .command cmd => w.processCommand cmd
  | .message tabId type data => ((w.processMessage tabId type data).fst, .ok ())
  | .portMessage tabId type data => (w.processPortMessage tabId type data, .ok ())
  | .modeChange tabId newMode => w.processModeChangeEvent tabId newMode
  | .menuClick idx =>
    match w.contextMenu.get? idx with
    | some item => w.clickMenuItem item
    | none => (w, .ok ())

/-- States reachable from an initial state by public operations. -/
inductive Reachable : TabWorker → Prop
  | init (currentTab : Option Int) : Reachable (TabWorker.initialState currentTab)
  | step (w : TabWorker) (op : Op) : Reachable w → Reachable (applyOp w op).fst

/-! ## Lemmas about the sparse map operations -/

theorem ctrlLookup_erase_self (l : List (Int × Controller)) (t : Int) :
    ctrlLookup (ctrlErase l t) t = none := by
  induction l with
  | nil => rfl
  | cons p rest ih =>
    obtain ⟨k, c⟩ := p
    by_cases hk : k = t
    · simp [ctrlErase, hk, ih]
    · simp [ctrlErase, ctrlLookup, hk, ih]

theorem ctrlLookup_erase_ne (l : List (Int × Controller)) (t j : Int) (h : j ≠ t) :
    ctrlLookup (ctrlErase l t) j = ctrlLookup l j := by
  induction l with
  | nil => rfl
  | cons p rest ih =>
    obtain ⟨k, c⟩ := p
    by_cases hk : k = t
    · have hkj : ¬(k = j) := by omega
      have htj : ¬(t = j) := by omega
      simp [ctrlErase, ctrlLookup, hk, hkj, htj, ih]
    · by_cases hkj : k = j
      · have hjt : ¬(j = t) := by omega
        simp [ctrlErase, ctrlLookup, hk, hkj, hjt]
      · simp [ctrlErase, ctrlLookup, hk, hkj, ih]

theorem ctrlLookup_insert (l : List (Int × Controller)) (t j : Int) (c : Controller) :
    ctrlLookup (ctrlInsert l t c) j = if j = t then some c else ctrlLookup l j := by
  induction l with
  | nil =>
    by_cases hj : j = t
    · simp [ctrlInsert, ctrlLookup, hj]
    · have h1 : ¬(t = j) := by omega
      simp [ctrlInsert, ctrlLookup, hj, h1]
  | cons p rest ih =>
    obtain ⟨k, c0⟩ := p
    by_cases hk : k = t
    · by_cases hj : j = t
      · simp [ctrlInsert, hk, ctrlLookup, hj]
      · have h1 : ¬(t = j) := by omega
        simp [ctrlInsert, hk, ctrlLookup, hj, h1]
    · by_cases hlt : t < k
      · by_cases hj : j = t
        · simp [ctrlInsert, hk, hlt, ctrlLookup, hj]
        · have h1 : ¬(t = j) := by omega
          simp [ctrlInsert, hk, hlt, ctrlLookup, h1, hj]
      · by_cases hkj : k = j
        · have hj : ¬(j = t) := by omega
          have h2 : ¬(t < j) := by omega
          simp [ctrlInsert, hk, hlt, ctrlLookup, hkj, hj, h2]
        · simp [ctrlInsert, hk, hlt, ctrlLookup, hkj, ih]

theorem mem_ctrlInsert (l : List (Int × Controller)) (t : Int) (c : Controller)
    (p : Int × Controller) (h : p ∈ ctrlInsert l t c) : p = (t, c) ∨ p ∈ l := by
  induction l with
  | nil => simpa [ctrlInsert] using h
  | cons q rest ih =>
    obtain ⟨k, c0⟩ := q
    by_cases hk : k = t
    · rw [show ctrlInsert ((k, c0) :: rest) t c = (t, c) :: rest by simp [ctrlInsert, hk]] at h
      rcases List.mem_cons.mp h with h1 | h1
      · exact Or.inl h1
      · exact Or.inr (List.mem_cons_of_mem _ h1)
    · by_cases hlt : t < k
      · rw [show ctrlInsert ((k, c0) :: rest) t c = (t, c) :: (k, c0) :: rest by
          simp [ctrlInsert, hk, hlt]] at h
        rcases List.mem_cons.mp h with h1 | h1
        · exact Or.inl h1
        · exact Or.inr h1
      · rw [show ctrlInsert ((k, c0) :: rest) t c = (k, c0) :: ctrlInsert rest t c by
          simp [ctrlInsert, hk, hlt]] at h
        rcases List.mem_cons.mp h with h1 | h1
        · exact Or.inr (h1 ▸ List.mem_cons_self _ _)
        · rcases ih h1 with h2 | h2
          · exact Or.inl h2
          · exact Or.inr (List.mem_cons_of_mem _ h2)

theorem ctrlErase_sublist (l : List (Int × Controller)) (t : Int) :
    List.Sublist (ctrlErase l t) l := by
  induction l with
  | nil => exact List.Sublist.refl _
  | cons p rest ih =>
    obtain ⟨k, c⟩ := p
    by_cases hk : k = t
    · rw [show ctrlErase ((k, c) :: rest) t = ctrlErase rest t by simp [ctrlErase, hk]]
      exact List.Sublist.cons _ ih
    · rw [show ctrlErase ((k, c) :: rest) t = (k, c) :: ctrlErase rest t by
        simp [ctrlErase, hk]]
      exact List.Sublist.cons₂ _ ih

theorem ctrlInsert_pairwise_lt (l : List (Int × Controller)) (t : Int) (c : Controller)
    (h : l.Pairwise (fun a b => a.1 < b.1)) :
    (ctrlInsert l t c).Pairwise (fun a b => a.1 < b.1) := by
  induction l with
  | nil => simp [ctrlInsert]
  | cons p rest ih =>
    obtain ⟨k, c0⟩ := p
    rcases List.pairwise_cons.mp h with ⟨hhead, htail⟩
    by_cases hk : k = t
    · rw [show ctrlInsert ((k, c0) :: rest) t c = (t, c) :: rest by simp [ctrlInsert, hk]]
      exact List.pairwise_cons.mpr ⟨fun b hb => hk ▸ hhead b hb, htail⟩
    · by_cases hlt : t < k
      · rw [show ctrlInsert ((k, c0) :: rest) t c = (t, c) :: (k, c0) :: rest by
          simp [ctrlInsert, hk, hlt]]
        refine List.pairwise_cons.mpr ⟨?_, h⟩
        intro b hb
        rcases List.mem_cons.mp hb with hb | hb
        · simpa [hb] using hlt
        · exact lt_trans hlt (hhead b hb)
      · rw [show ctrlInsert ((k, c0) :: rest) t c = (k, c0) :: ctrlInsert rest t c by
          simp [ctrlInsert, hk, hlt]]
        refine List.pairwise_cons.mpr ⟨?_, ih htail⟩
        intro b hb
        rcases mem_ctrlInsert rest t c b hb with hb | hb
        · have hkt : k < t := by omega
          simpa [hb] using hkt
        · exact hhead b hb

theorem ctrlLookup_mem (l : List (Int × Controller)) (k : Int) (c : Controller)
    (h : ctrlLookup l k = some c) : (k, c) ∈ l := by
  induction l with
  | nil => simp [ctrlLookup] at h
  | cons p rest ih =>
    obtain ⟨k0, c0⟩ := p
    by_cases hk : k0 = k
    · subst hk
      simp [ctrlLookup] at h
      subst h
      exact List.mem_cons_self _ _
    · rw [show ctrlLookup ((k0, c0) :: rest) k = ctrlLookup rest k by
        simp [ctrlLookup, hk]] at h
      exact List.mem_cons_of_mem _ (ih h)

theorem ctrlLookup_of_mem (l : List (Int × Controller)) (k : Int) (c : Controller)
    (hnd : l.Pairwise (fun a b => a.1 ≠ b.1)) (hm : (k, c) ∈ l) :
    ctrlLookup l k = some c := by
  induction l with
  | nil => simp at hm
  | cons p rest ih =>
    obtain ⟨k0, c0⟩ := p
    rcases List.pairwise_cons.mp hnd with ⟨hhead, htail⟩
    rcases List.mem_cons.mp hm with hm1 | hm1
    · have h1 : k0 = k := (Prod.ext_iff.mp hm1).1.symm
      have h2 : c0 = c := (Prod.ext_iff.mp hm1).2.symm
      simp [ctrlLookup, h1, h2]
    · have hne : ¬(k0 = k) := by
        have := hhead (k, c) hm1
        simpa using this
      simp [ctrlLookup, hne, ih htail hm1]

theorem firstActive_spec (l : List (Int × Controller)) (t : Int)
    (h : TabWorker.firstActiveCtrlTabId l = some t) :
    ∃ p, p ∈ l ∧ isActiveMode p.2.mode = true ∧ p.2.tabId = t := by
  induction l with
  | nil => simp [TabWorker.firstActiveCtrlTabId] at h
  | cons p rest ih =>
    obtain ⟨k, c⟩ := p
    by_cases ha : isActiveMode c.getMode
    · rw [show TabWorker.firstActiveCtrlTabId ((k, c) :: rest) = some c.tabId by
        simp [TabWorker.firstActiveCtrlTabId, ha]] at h
      exact ⟨(k, c), List.mem_cons_self _ _, ha, by simpa using h⟩
    · rw [show TabWorker.firstActiveCtrlTabId ((k, c) :: rest)
          = TabWorker.firstActiveCtrlTabId rest by
        simp [TabWorker.firstActiveCtrlTabId, ha]] at h
      obtain ⟨q, hq, h1, h2⟩ := ih h
      exact ⟨q, List.mem_cons_of_mem _ hq, h1, h2⟩

theorem firstActive_none (l : List (Int × Controller))
    (h : TabWorker.firstActiveCtrlTabId l = none) :
    ∀ p ∈ l, isActiveMode p.2.mode = false := by
  induction l with
  | nil => simp
  | cons p rest ih =>
    obtain ⟨k, c⟩ := p
    by_cases ha : isActiveMode c.getMode
    · simp [TabWorker.firstActiveCtrlTabId, ha] at h
    · intro q hq
      rcases List.mem_cons.mp hq with hq1 | hq1
      · subst hq1
        simpa [Controller.getMode] using Bool.eq_false_iff.mpr ha
      · rw [show TabWorker.firstActiveCtrlTabId ((k, c) :: rest)
            = TabWorker.firstActiveCtrlTabId rest by
          simp [TabWorker.firstActiveCtrlTabId, ha]] at h
        exact ih h q hq1

/-! ## Frame lemmas: which state components each method can touch -/

theorem updateContextMenu_frame (w : TabWorker) (t : Int) :
    ∃ m, (w.updateContextMenu t).fst = { w with contextMenu := m } := by
  rcases h1 : TabWorker.getCtrl w t with _ | c <;>
    rcases h2 : TabWorker.getCtrl w w.activeTabId with _ | ac <;>
    simp only [TabWorker.getCtrl] at h1 h2 <;>
    simp only [TabWorker.updateContextMenu, TabWorker.resetContextMenu,
      TabWorker.addToggleConnectorMenuSome, TabWorker.addDisableUntilTabClosedItem,
      TabWorker.addToggleConnectorMenu, TabWorker.addContextMenuItem,
      TabWorker.getCtrl, h1, h2] <;>
    (repeat' split) <;>
    exact ⟨_, rfl⟩

theorem updateContextMenu_activeTabId (w : TabWorker) (t : Int) :
    (w.updateContextMenu t).fst.activeTabId = w.activeTabId := by
  obtain ⟨m, hm⟩ := updateContextMenu_frame w t
  rw [hm]

theorem updateContextMenu_currentTabId (w : TabWorker) (t : Int) :
    (w.updateContextMenu t).fst.currentTabId = w.currentTabId := by
  obtain ⟨m, hm⟩ := updateContextMenu_frame w t
  rw [hm]

theorem updateContextMenu_tabControllers (w : TabWorker) (t : Int) :
    (w.updateContextMenu t).fst.tabControllers = w.tabControllers := by
  obtain ⟨m, hm⟩ := updateContextMenu_frame w t
  rw [hm]

theorem updateBrowserAction_frame (w : TabWorker) (t : Int) :
    ∃ b, w.updateBrowserAction t = { w with browserAction := b } := by
  rcases h1 : TabWorker.getCtrl w t with _ | c <;>
    simp only [TabWorker.updateBrowserAction, h1] <;>
    exact ⟨_, rfl⟩

theorem updateBrowserAction_activeTabId (w : TabWorker) (t : Int) :
    (w.updateBrowserAction t).activeTabId = w.activeTabId := by
  obtain ⟨b, hb⟩ := updateBrowserAction_frame w t
  rw [hb]

theorem updateBrowserAction_currentTabId (w : TabWorker) (t : Int) :
    (w.updateBrowserAction t).currentTabId = w.currentTabId := by
  obtain ⟨b, hb⟩ := updateBrowserAction_frame w t
  rw [hb]

theorem updateBrowserAction_tabControllers (w : TabWorker) (t : Int) :
    (w.updateBrowserAction t).tabControllers = w.tabControllers := by
  obtain ⟨b, hb⟩ := updateBrowserAction_frame w t
  rw [hb]

theorem updateLastActiveTab_tabControllers (w : TabWorker) :
    (w.updateLastActiveTab).fst.tabControllers = w.tabControllers := by
  by_cases h : w.findActiveTabId = NO_TAB
  · simp [TabWorker.updateLastActiveTab, TabWorker.resetContextMenu, h]
  · simp [TabWorker.updateLastActiveTab, h, updateContextMenu_tabControllers,
      updateBrowserAction_tabControllers]

theorem updateLastActiveTab_currentTabId (w : TabWorker) :
    (w.updateLastActiveTab).fst.currentTabId = w.currentTabId := by
  by_cases h : w.findActiveTabId = NO_TAB
  · simp [TabWorker.updateLastActiveTab, TabWorker.resetContextMenu, h]
  · simp [TabWorker.updateLastActiveTab, h, updateContextMenu_currentTabId,
      updateBrowserAction_currentTabId]

theorem updateLastActiveTab_activeTabId (w : TabWorker) :
    (w.updateLastActiveTab).fst.activeTabId
      = if w.findActiveTabId ≠ NO_TAB then w.findActiveTabId else w.activeTabId := by
  by_cases h : w.findActiveTabId = NO_TAB
  · simp [TabWorker.updateLastActiveTab, TabWorker.resetContextMenu, h]
  · simp [TabWorker.updateLastActiveTab, h, updateContextMenu_activeTabId,
      updateBrowserAction_activeTabId]

theorem menuClickWrapper_tabControllers (w : TabWorker) (t : Int) :
    (w.menuClickWrapper t).fst.tabControllers = w.tabControllers := by
  unfold TabWorker.menuClickWrapper
  rcases h : w.updateContextMenu t with ⟨w2, r⟩
  have h2 : w2.tabControllers = w.tabControllers := by
    have := updateContextMenu_tabControllers w t
    rw [h] at this
    exact this
  cases r with
  | error e => simpa using h2
  | ok _ =>
    simp only []
    split
    · rw [updateBrowserAction_tabControllers]
      exact h2
    · exact h2

theorem menuClickWrapper_activeTabId (w : TabWorker) (t : Int) :
    (w.menuClickWrapper t).fst.activeTabId = w.activeTabId := by
  unfold TabWorker.menuClickWrapper
  rcases h : w.updateContextMenu t with ⟨w2, r⟩
  have h2 : w2.activeTabId = w.activeTabId := by
    have := updateContextMenu_activeTabId w t
    rw [h] at this
    exact this
  cases r with
  | error e => simpa using h2
  | ok _ =>
    simp only []
    split
    · rw [updateBrowserAction_activeTabId]
      exact h2
    · exact h2

theorem menuClickWrapper_currentTabId (w : TabWorker) (t : Int) :
    (w.menuClickWrapper t).fst.currentTabId = w.currentTabId := by
  unfold TabWorker.menuClickWrapper
  rcases h : w.updateContextMenu t with ⟨w2, r⟩
  have h2 : w2.currentTabId = w.currentTabId := by
    have := updateContextMenu_currentTabId w t
    rw [h] at this
    exact this
  cases r with
  | error e => simpa using h2
  | ok _ =>
    simp only []
    split
    · rw [updateBrowserAction_currentTabId]
      exact h2
    · exact h2

theorem processControlleModeChange_tabControllers (w : TabWorker) (c : Controller) (t : Int) :
    (w.processControlleModeChange c t).fst.tabControllers = w.tabControllers := by
  by_cases h1 : w.activeTabId = t
  · by_cases h2 : isInactiveMode c.getMode
      <;> simp [TabWorker.processControlleModeChange, h1, h2,
        updateBrowserAction_tabControllers]
  · by_cases h2 : isInactiveMode c.getMode
    · simp [TabWorker.processControlleModeChange, h1, h2]
    · rcases hp : TabWorker.updateContextMenu { w with activeTabId := t } w.currentTabId
        with ⟨w2, r⟩
      have h3 : w2.tabControllers = w.tabControllers := by
        have := updateContextMenu_tabControllers { w with activeTabId := t } w.currentTabId
        rw [hp] at this
        exact this
      cases r with
      | error e => simp [TabWorker.processControlleModeChange, h1, h2, hp, h3]
      | ok u =>
        simp [TabWorker.processControlleModeChange, h1, h2, hp,
          updateBrowserAction_tabControllers, h3]

theorem processControlleModeChange_currentTabId (w : TabWorker) (c : Controller) (t : Int) :
    (w.processControlleModeChange c t).fst.currentTabId = w.currentTabId := by
  by_cases h1 : w.activeTabId = t
  · by_cases h2 : isInactiveMode c.getMode
      <;> simp [TabWorker.processControlleModeChange, h1, h2,
        updateBrowserAction_currentTabId]
  · by_cases h2 : isInactiveMode c.getMode
    · simp [TabWorker.processControlleModeChange, h1, h2]
    · rcases hp : TabWorker.updateContextMenu { w with activeTabId := t } w.currentTabId
        with ⟨w2, r⟩
      have h3 : w2.currentTabId = w.currentTabId := by
        have := updateContextMenu_currentTabId { w with activeTabId := t } w.currentTabId
        rw [hp] at this
        exact this
      cases r with
      | error e => simp [TabWorker.processControlleModeChange, h1, h2, hp, h3]
      | ok u =>
        simp [TabWorker.processControlleModeChange, h1, h2, hp,
          updateBrowserAction_currentTabId, h3]

/-! ## Well-formedness of the controller map -/

/-- Well-formed controller map: every entry's controller records its own key
(as enforced by `createController`: `new Controller(tabId, ...)` stored at
`this.tabControllers[tabId]`), and the keys are strictly ascending (the
iteration order of array indices). -/
def WfMap (l : List (Int × Controller)) : Prop :=
  (∀ p ∈ l, p.2.tabId = p.1) ∧ l.Pairwise (fun a b => a.1 < b.1)

instance (l : List (Int × Controller)) : Decidable (WfMap l) := by
  unfold WfMap
  infer_instance

/-- Well-formed worker state. -/
def TabWorker.Wf (w : TabWorker) : Prop := WfMap w.tabControllers

instance (w : TabWorker) : Decidable w.Wf := by
  unfold TabWorker.Wf
  infer_instance

theorem wfMap_nodup (l : List (Int × Controller)) (h : WfMap l) :
    l.Pairwise (fun a b => a.1 ≠ b.1) :=
  h.2.imp (fun hlt => ne_of_lt hlt)

theorem wfMap_erase (l : List (Int × Controller)) (t : Int) (h : WfMap l) :
    WfMap (ctrlErase l t) :=
  ⟨fun p hp => h.1 p ((ctrlErase_sublist l t).subset hp),
   h.2.sublist (ctrlErase_sublist l t)⟩

theorem wfMap_insert (l : List (Int × Controller)) (t : Int) (c : Controller)
    (h : WfMap l) (hc : c.tabId = t) : WfMap (ctrlInsert l t c) := by
  refine ⟨fun p hp => ?_, ctrlInsert_pairwise_lt l t c h.2⟩
  rcases mem_ctrlInsert l t c p hp with h1 | h1
  · rw [h1]
    exact hc
  · exact h.1 p h1

theorem wf_getCtrl_tabId (w : TabWorker) (k : Int) (c : Controller)
    (hwf : w.Wf) (h : w.getCtrl k = some c) : c.tabId = k :=
  hwf.1 (k, c) (ctrlLookup_mem _ _ _ h)

theorem wf_getCtrl_of_mem (w : TabWorker) (k : Int) (c : Controller)
    (hwf : w.Wf) (hm : (k, c) ∈ w.tabControllers) : w.getCtrl k = some c :=
  ctrlLookup_of_mem _ _ _ (wfMap_nodup _ hwf) hm

theorem wf_setCtrl (w : TabWorker) (t : Int) (c : Controller)
    (hwf : w.Wf) (hc : c.tabId = t) : (w.setCtrl t c).Wf :=
  wfMap_insert _ _ _ hwf hc

theorem wf_unloadController (w : TabWorker) (t : Int) (hwf : w.Wf) :
    (w.unloadController t).Wf := by
  unfold TabWorker.unloadController
  split
  · exact hwf
  · exact wfMap_erase _ _ hwf

theorem wf_createController (w : TabWorker) (t : Int) (conn : Connector)
    (hwf : w.Wf) : (w.createController t conn).Wf :=
  wfMap_insert _ _ _ hwf rfl

theorem wf_updateContextMenu (w : TabWorker) (t : Int) (hwf : w.Wf) :
    (w.updateContextMenu t).fst.Wf := by
  unfold TabWorker.Wf
  rw [updateContextMenu_tabControllers]
  exact hwf

theorem wf_updateBrowserAction (w : TabWorker) (t : Int) (hwf : w.Wf) :
    (w.updateBrowserAction t).Wf := by
  unfold TabWorker.Wf
  rw [updateBrowserAction_tabControllers]
  exact hwf

theorem wf_updateLastActiveTab (w : TabWorker) (hwf : w.Wf) :
    (w.updateLastActiveTab).fst.Wf := by
  unfold TabWorker.Wf
  rw [updateLastActiveTab_tabControllers]
  exact hwf

theorem wf_processTabChange (w : TabWorker) (t : Int) (hwf : w.Wf) :
    (w.processTabChange t).fst.Wf := by
  have hA : TabWorker.Wf { w with currentTabId := t } := hwf
  have hB : TabWorker.Wf
      { (({ w with currentTabId := t } : TabWorker).updateBrowserAction t) with
        activeTabId := t } :=
    wf_updateBrowserAction { w with currentTabId := t } t hA
  simp only [TabWorker.processTabChange]
  split
  · exact wf_updateContextMenu _ _ hB
  · exact wf_updateContextMenu _ _ hA

theorem wf_processTabRemove (w : TabWorker) (t : Int) (hwf : w.Wf) :
    (w.processTabRemove t).fst.Wf := by
  have h1 : TabWorker.Wf { w.unloadController t with activeTabId := NO_TAB } :=
    wf_unloadController w t hwf
  simp only [TabWorker.processTabRemove]
  split
  · exact wf_updateLastActiveTab _ h1
  · exact wf_unloadController w t hwf

theorem wf_tryToInjectConnector (w : TabWorker) (t : Int) (conn : Connector)
    (result : InjectResult) (hwf : w.Wf) :
    (w.tryToInjectConnector t conn result).fst.Wf := by
  cases result with
  | injected => exact hwf
  | noMatch =>
    simp only [TabWorker.tryToInjectConnector]
    split
    · exact wf_updateLastActiveTab _ (wf_unloadController w t hwf)
    · exact hwf
  | matched =>
    have h1 : ((w.unloadController t).createController t conn).Wf :=
      wf_createController _ _ _ (wf_unloadController w t hwf)
    have h3 : (if ((w.unloadController t).createController t conn).shouldUpdateBrowserAction t
          = true
        then ((w.unloadController t).createController t conn).updateBrowserAction t
        else (w.unloadController t).createController t conn).Wf := by
      split
      · exact wf_updateBrowserAction _ _ h1
      · exact h1
    simp only [TabWorker.tryToInjectConnector]
    split
    · rename_i w4 e heq
      have := wf_updateContextMenu _ t h3
      rw [heq] at this
      exact this
    · rename_i w4 u heq
      have := wf_updateContextMenu _ t h3
      rw [heq] at this
      exact this

theorem wf_processModeChangeEvent (w : TabWorker) (t : Int) (m : CtrlMode)
    (hwf : w.Wf) : (w.processModeChangeEvent t m).fst.Wf := by
  unfold TabWorker.processModeChangeEvent
  split
  · exact hwf
  · rename_i c hc
    have htab : c.tabId = t := wf_getCtrl_tabId w t c hwf hc
    have h1 : (w.setCtrl t { c with mode := m }).Wf :=
      wf_setCtrl w t _ hwf (by simpa using htab)
    unfold TabWorker.Wf
    rw [processControlleModeChange_tabControllers]
    exact h1

theorem wf_processCommand (w : TabWorker) (cmd : String) (hwf : w.Wf) :
    (w.processCommand cmd).fst.Wf := by
  unfold TabWorker.processCommand
  split
  · exact hwf
  · split
    · exact hwf
    · split
      · exact wf_setCtrl _ _ _ hwf rfl
      · exact hwf

theorem wf_processMessage (w : TabWorker) (t : Int) (type : String) (data : MsgData)
    (hwf : w.Wf) : (w.processMessage t type data).fst.Wf := by
  unfold TabWorker.processMessage
  split
  · exact hwf
  · split
    · exact hwf
    · split
      · exact hwf
      · split
        · exact wf_setCtrl _ _ _ hwf rfl
        · split
          · exact wf_setCtrl _ _ _ hwf rfl
          · split
            · exact wf_setCtrl _ _ _ hwf rfl
            · split
              · exact wf_setCtrl _ _ _ hwf rfl
              · exact hwf

theorem wf_processPortMessage (w : TabWorker) (t : Int) (type : String) (data : Nat)
    (hwf : w.Wf) : (w.processPortMessage t type data).Wf := by
  unfold TabWorker.processPortMessage
  split
  · split
    · rename_i c hc
      exact wf_setCtrl _ _ _ hwf
        (by simpa using wf_getCtrl_tabId w t c hwf hc)
    · exact hwf
  · exact hwf

theorem wf_setConnectorState (w : TabWorker) (ct : Int) (ci : Nat) (b : Bool)
    (hwf : w.Wf) : (w.setConnectorState ct ci b).Wf := by
  unfold TabWorker.setConnectorState TabWorker.setOptionEnabled
  split
  · rename_i c hc
    exact wf_setCtrl _ _ _ hwf (by simpa using wf_getCtrl_tabId w ct c hwf hc)
  · exact hwf

theorem wf_menuClickWrapper (w : TabWorker) (t : Int) (hwf : w.Wf) :
    (w.menuClickWrapper t).fst.Wf := by
  unfold TabWorker.Wf
  rw [menuClickWrapper_tabControllers]
  exact hwf

theorem wf_clickMenuItem (w : TabWorker) (item : MenuItem) (hwf : w.Wf) :
    (w.clickMenuItem item).fst.Wf := by
  cases item with
  | toggleConnector t1 t2 t3 t4 t5 =>
    simp only [TabWorker.clickMenuItem]
    exact wf_menuClickWrapper _ _ (wf_setConnectorState _ _ _ _ hwf)
  | disableUntilTabClosed t1 t2 t3 =>
    rcases hc : w.getCtrl t2 with _ | c
    · simp only [TabWorker.clickMenuItem, hc]
      exact wf_menuClickWrapper _ _ hwf
    · simp only [TabWorker.clickMenuItem, hc]
      exact wf_menuClickWrapper _ _
        (wf_setCtrl _ _ _ hwf (by simpa using wf_getCtrl_tabId w t2 c hwf hc))

theorem wf_applyOp (w : TabWorker) (op : Op) (hwf : w.Wf) : (applyOp w op).fst.Wf := by
  cases op with
  | tabUpdate t conn result => exact wf_tryToInjectConnector w t conn result hwf
  | tabChange t => exact wf_processTabChange w t hwf
  | tabRemove t => exact wf_processTabRemove w t hwf
  | command cmd => exact wf_processCommand w cmd hwf
  | message t type data => exact wf_processMessage w t type data hwf
  | portMessage t type data => exact wf_processPortMessage w t type data hwf
  | modeChange t m => exact wf_processModeChangeEvent w t m hwf
  | menuClick idx =>
    simp only [applyOp]
    rcases hi : w.contextMenu.get? idx with _ | item
    · simp only [hi]
      exact hwf
    · simp only [hi]
      exact wf_clickMenuItem _ _ hwf

theorem wf_reachable (w : TabWorker) (h : Reachable w) : w.Wf := by
  induction h with
  | init ct => exact ⟨by simp [TabWorker.initialState], by simp [TabWorker.initialState]⟩
  | step w op hr ih => exact wf_applyOp w op ih

/-! ## The §4.3 active-tab invariant -/

/-- The spec's §4.3 invariant: ActiveTabId is `NO_TAB`, or a tab with a live
controller entry whose mode is active, or equals CurrentTabId. -/
def activeTabInvariant (w : TabWorker) : Bool :=
  (w.activeTabId == NO_TAB) ||
  ((w.getCtrl w.activeTabId).any fun c => isActiveMode c.mode) ||
  (w.activeTabId == w.currentTabId)

theorem option_any_iff {α : Type} (o : Option α) (f : α → Bool) :
    o.any f = true ↔ ∃ a, o = some a ∧ f a = true := by
  cases o <;> simp [Option.any]

theorem activeTabInvariant_iff (w : TabWorker) :
    activeTabInvariant w = true ↔
      (w.activeTabId = NO_TAB ∨
       (∃ c, w.getCtrl w.activeTabId = some c ∧ isActiveMode c.mode = true) ∨
       w.activeTabId = w.currentTabId) := by
  rcases h1 : w.getCtrl w.activeTabId with _ | c
  · simp [activeTabInvariant, h1]
  · simp [activeTabInvariant, h1]
    tauto

theorem activeTabInvariant_congr (w w' : TabWorker)
    (h1 : w'.activeTabId = w.activeTabId) (h2 : w'.currentTabId = w.currentTabId)
    (h3 : w'.tabControllers = w.tabControllers) :
    activeTabInvariant w' = activeTabInvariant w := by
  simp [activeTabInvariant, TabWorker.getCtrl, h1, h2, h3]

theorem findActiveTabId_cases (w : TabWorker) (hwf : w.Wf) :
    w.findActiveTabId = NO_TAB ∨
    (∃ c, w.getCtrl w.findActiveTabId = some c ∧ isActiveMode c.mode = true) ∨
    (w.findActiveTabId = w.currentTabId ∧ (w.getCtrl w.currentTabId).isSome = true) := by
  by_cases h1 : ((w.getCtrl w.currentTabId).any fun c => isActiveMode c.mode) = true
  · right; right
    obtain ⟨c, hc, _⟩ := (option_any_iff _ _).mp h1
    refine ⟨?_, by simp [hc]⟩
    simp [TabWorker.findActiveTabId, h1]
  · rcases hfa : TabWorker.firstActiveCtrlTabId w.tabControllers with _ | t
    · by_cases h2 : (w.getCtrl w.currentTabId).isSome = true
      · right; right
        refine ⟨?_, h2⟩
        simp [TabWorker.findActiveTabId, h1, hfa, h2]
      · left
        simp [TabWorker.findActiveTabId, h1, hfa, h2]
    · right; left
      have hres : w.findActiveTabId = t := by
        simp [TabWorker.findActiveTabId, h1, hfa]
      obtain ⟨p, hp, hact, hid⟩ := firstActive_spec w.tabControllers t hfa
      have hkey : p.2.tabId = p.1 := hwf.1 p hp
      have hlook : w.getCtrl p.1 = some p.2 :=
        wf_getCtrl_of_mem w p.1 p.2 hwf (by
          rcases p with ⟨k, c⟩
          exact hp)
      refine ⟨p.2, ?_, hact⟩
      rw [hres, ← hid, hkey]
      exact hlook

theorem inv_updateLastActiveTab (w : TabWorker) (hwf : w.Wf)
    (hinv : activeTabInvariant w = true) :
    activeTabInvariant (w.updateLastActiveTab).fst = true := by
  have hA := updateLastActiveTab_activeTabId w
  have hC := updateLastActiveTab_currentTabId w
  have hT := updateLastActiveTab_tabControllers w
  by_cases h : w.findActiveTabId = NO_TAB
  · have h1 : (w.updateLastActiveTab).fst.activeTabId = w.activeTabId := by
      rw [hA]
      simp [h]
    rw [activeTabInvariant_congr _ _ h1 hC hT]
    exact hinv
  · have h1 : (w.updateLastActiveTab).fst.activeTabId = w.findActiveTabId := by
      rw [hA]
      simp [h]
    have h2 := activeTabInvariant_congr { w with activeTabId := w.findActiveTabId }
      (w.updateLastActiveTab).fst (by rw [h1]) (by rw [hC]) (by rw [hT])
    rw [h2, activeTabInvariant_iff]
    rcases findActiveTabId_cases w hwf with h3 | ⟨c, hc, ha⟩ | ⟨h3, _⟩
    · exact Or.inl h3
    · exact Or.inr (Or.inl ⟨c, hc, ha⟩)
    · exact Or.inr (Or.inr h3)

theorem shouldUpdate_false_current (w : TabWorker)
    (h : ¬ (w.shouldUpdateBrowserAction w.currentTabId = true)) :
    ((w.getCtrl w.activeTabId).any fun c => isActiveMode c.mode) = true := by
  by_cases h1 : ((w.getCtrl w.activeTabId).any fun c => isActiveMode c.mode) = true
  · exact h1
  · exfalso
    rcases h2 : w.getCtrl w.currentTabId with _ | c <;>
      simp [TabWorker.shouldUpdateBrowserAction, h1, h2] at h

theorem inv_setCtrl_modeEq (w : TabWorker) (k : Int) (c c' : Controller)
    (hl : w.getCtrl k = some c) (hm : c'.mode = c.mode)
    (hinv : activeTabInvariant w = true) :
    activeTabInvariant (w.setCtrl k c') = true := by
  rw [activeTabInvariant_iff] at hinv ⊢
  rcases hinv with h | ⟨c0, hc0, ha0⟩ | h
  · exact Or.inl h
  · right; left
    by_cases hk : w.activeTabId = k
    · refine ⟨c', ?_, ?_⟩
      · show ctrlLookup (ctrlInsert w.tabControllers k c') w.activeTabId = some c'
        rw [ctrlLookup_insert]
        simp [hk]
      · have hcc : c0 = c := by
          rw [hk] at hc0
          rw [hc0] at hl
          exact (Option.some.injEq _ _).mp hl
        rw [hm, ← hcc]
        exact ha0
    · refine ⟨c0, ?_, ha0⟩
      show ctrlLookup (ctrlInsert w.tabControllers k c') w.activeTabId = some c0
      rw [ctrlLookup_insert]
      simpa [hk, TabWorker.getCtrl] using hc0
  · exact Or.inr (Or.inr h)

theorem unloadController_activeTabId (w : TabWorker) (t : Int) :
    (w.unloadController t).activeTabId = w.activeTabId := by
  unfold TabWorker.unloadController
  split <;> rfl

theorem unloadController_currentTabId (w : TabWorker) (t : Int) :
    (w.unloadController t).currentTabId = w.currentTabId := by
  unfold TabWorker.unloadController
  split <;> rfl

theorem ctrlErase_of_lookup_none (l : List (Int × Controller)) (t : Int)
    (h : ctrlLookup l t = none) : ctrlErase l t = l := by
  induction l with
  | nil => rfl
  | cons p rest ih =>
    obtain ⟨k, c⟩ := p
    by_cases hk : k = t
    · simp [ctrlLookup, hk] at h
    · simp only [ctrlLookup, if_neg hk] at h
      simp [ctrlErase, hk, ih h]

theorem unloadController_tabControllers (w : TabWorker) (t : Int) :
    (w.unloadController t).tabControllers = ctrlErase w.tabControllers t := by
  rcases h : ctrlLookup w.tabControllers t with _ | c
  · simp [TabWorker.unloadController, TabWorker.getCtrl, h,
      ctrlErase_of_lookup_none _ _ h]
  · simp [TabWorker.unloadController, TabWorker.getCtrl, h]

theorem unloadController_getCtrl_self (w : TabWorker) (t : Int) :
    (w.unloadController t).getCtrl t = none := by
  unfold TabWorker.getCtrl
  rw [unloadController_tabControllers]
  exact ctrlLookup_erase_self _ _

theorem unloadController_getCtrl_ne (w : TabWorker) (t j : Int) (h : j ≠ t) :
    (w.unloadController t).getCtrl j = w.getCtrl j := by
  unfold TabWorker.getCtrl
  rw [unloadController_tabControllers]
  exact ctrlLookup_erase_ne _ _ _ h

theorem inv_processTabChange (w : TabWorker) (t : Int) :
    activeTabInvariant (w.processTabChange t).fst = true := by
  by_cases h : TabWorker.shouldUpdateBrowserAction { w with currentTabId := t } t = true
  · simp only [TabWorker.processTabChange, h, if_true]
    rw [activeTabInvariant_iff]
    right; right
    rw [updateContextMenu_activeTabId, updateContextMenu_currentTabId]
    simp [updateBrowserAction_currentTabId]
  · simp only [TabWorker.processTabChange]
    rw [if_neg h, activeTabInvariant_iff]
    right; left
    have h2 := shouldUpdate_false_current { w with currentTabId := t } h
    obtain ⟨c, hc, ha⟩ := (option_any_iff _ _).mp h2
    refine ⟨c, ?_, ha⟩
    unfold TabWorker.getCtrl
    rw [updateContextMenu_tabControllers, updateContextMenu_activeTabId]
    exact hc

theorem inv_processTabRemove (w : TabWorker) (t : Int) (hwf : w.Wf)
    (hinv : activeTabInvariant w = true) :
    activeTabInvariant (w.processTabRemove t).fst = true := by
  simp only [TabWorker.processTabRemove]
  split
  · apply inv_updateLastActiveTab
    · exact wf_unloadController w t hwf
    · rw [activeTabInvariant_iff]
      left
      rfl
  · rename_i hne
    rw [activeTabInvariant_iff] at hinv ⊢
    rcases hinv with h | ⟨c, hc, ha⟩ | h
    · left
      rw [unloadController_activeTabId]
      exact h
    · right; left
      refine ⟨c, ?_, ha⟩
      rw [unloadController_activeTabId, unloadController_getCtrl_ne]
      · exact hc
      · exact fun he => hne (by rw [unloadController_activeTabId, he])
    · right; right
      rw [unloadController_activeTabId, unloadController_currentTabId]
      exact h

theorem orElse_getCtrl_self (w : TabWorker) (a b : Int) (c : Controller) (hwf : w.Wf)
    (h : (w.getCtrl a <|> w.getCtrl b) = some c) : w.getCtrl c.tabId = some c := by
  rcases h1 : w.getCtrl a with _ | c1
  · rw [h1] at h
    simp at h
    rw [wf_getCtrl_tabId w b c hwf h]
    exact h
  · rw [h1] at h
    simp at h
    subst h
    rw [wf_getCtrl_tabId w a c1 hwf h1]
    exact h1

theorem inv_processCommand (w : TabWorker) (cmd : String) (hwf : w.Wf)
    (hinv : activeTabInvariant w = true) :
    activeTabInvariant (w.processCommand cmd).fst = true := by
  simp only [TabWorker.processCommand]
  split
  · exact hinv
  · rename_i ctrl hctrl
    split
    · exact hinv
    · split
      · have hl : w.getCtrl ctrl.tabId = some ctrl :=
          orElse_getCtrl_self w _ _ ctrl hwf hctrl
        exact inv_setCtrl_modeEq w _ ctrl _ hl rfl hinv
      · exact hinv

theorem inv_processMessage (w : TabWorker) (t : Int) (type : String) (data : MsgData)
    (hwf : w.Wf) (hinv : activeTabInvariant w = true) :
    activeTabInvariant (w.processMessage t type data).fst = true := by
  simp only [TabWorker.processMessage]
  split
  · exact hinv
  · split
    · exact hinv
    · rename_i ctrl hctrl
      have htab : ctrl.tabId = t := wf_getCtrl_tabId w t ctrl hwf hctrl
      have hl : w.getCtrl ctrl.tabId = some ctrl := by
        rw [htab]
        exact hctrl
      split
      · exact hinv
      · split
        · exact inv_setCtrl_modeEq w _ ctrl _ hl rfl hinv
        · split
          · exact inv_setCtrl_modeEq w _ ctrl _ hl rfl hinv
          · split
            · exact inv_setCtrl_modeEq w _ ctrl _ hl rfl hinv
            · split
              · exact inv_setCtrl_modeEq w _ ctrl _ hl rfl hinv
              · exact hinv

theorem inv_processPortMessage (w : TabWorker) (t : Int) (type : String) (data : Nat)
    (hinv : activeTabInvariant w = true) :
    activeTabInvariant (w.processPortMessage t type data) = true := by
  simp only [TabWorker.processPortMessage]
  split
  · split
    · rename_i ctrl hctrl
      exact inv_setCtrl_modeEq w t ctrl _ hctrl rfl hinv
    · exact hinv
  · exact hinv

theorem inv_menuClickWrapper (w : TabWorker) (t : Int) :
    activeTabInvariant (w.menuClickWrapper t).fst = activeTabInvariant w :=
  activeTabInvariant_congr w (w.menuClickWrapper t).fst
    (menuClickWrapper_activeTabId w t) (menuClickWrapper_currentTabId w t)
    (menuClickWrapper_tabControllers w t)

theorem inv_clickMenuItem (w : TabWorker) (item : MenuItem)
    (hinv : activeTabInvariant w = true) :
    activeTabInvariant (w.clickMenuItem item).fst = true := by
  cases item with
  | toggleConnector t1 t2 t3 t4 t5 =>
    simp only [TabWorker.clickMenuItem]
    rw [inv_menuClickWrapper]
    simp only [TabWorker.setConnectorState]
    split
    · rename_i cur hcur
      exact inv_setCtrl_modeEq w t2 cur _ hcur rfl hinv
    · exact hinv
  | disableUntilTabClosed t1 t2 t3 =>
    simp only [TabWorker.clickMenuItem]
    rw [inv_menuClickWrapper]
    split
    · rename_i cur hcur
      exact inv_setCtrl_modeEq w t2 cur _ hcur rfl hinv
    · exact hinv

/-- Public operations other than `processTabUpdate`/`tryToInjectConnector`
and controller mode-change callbacks. -/
def preservingOp : Op → Bool
  | .tabUpdate _ _ _ => false
  | .modeChange _ _ => false
  | _ => true

/-! ## Claim C1 -/

/-- Connector used by the concrete counterexample runs. -/
def cexConnector : Connector := { id := 7, label := "cx" }

/-- Counterexample run for the claimed §4.3 invariant: tab 5 is promoted to
active while playing, the user switches to tab 3, then tab 5's controller
reports an inactive mode. -/
def cexC1StateA : TabWorker :=
  (applyOp (TabWorker.initialState (some 3)) (.tabChange 5)).fst

def cexC1StateB : TabWorker :=
  (applyOp cexC1StateA (.tabUpdate 5 cexConnector .matched)).fst

def cexC1StateC : TabWorker :=
  (applyOp cexC1StateB (.modeChange 5 .active)).fst

def cexC1StateD : TabWorker :=
  (applyOp cexC1StateC (.tabChange 3)).fst

def cexC1StateE : TabWorker :=
  (applyOp cexC1StateD (.modeChange 5 .inactive)).fst

/-- **C1, counterexample.**  The claimed invariant — ActiveTabId is NO_TAB,
or a tab with a live active-mode controller entry, or CurrentTabId — is
violated in a reachable state: after `processControlleModeChange` sees the
active tab's controller turn inactive while the user views another tab,
`activeTabId` remains 5 (live controller, inactive mode) with
`currentTabId = 3`.  Every step of the run completes without an error. -/
theorem C1_claim_counterexample :
    Reachable cexC1StateE ∧
    (applyOp (TabWorker.initialState (some 3)) (.tabChange 5)).snd = .ok () ∧
    (applyOp cexC1StateA (.tabUpdate 5 cexConnector .matched)).snd = .ok () ∧
    (applyOp cexC1StateB (.modeChange 5 .active)).snd = .ok () ∧
    (applyOp cexC1StateC (.tabChange 3)).snd = .ok () ∧
    (applyOp cexC1StateD (.modeChange 5 .inactive)).snd = .ok () ∧
    cexC1StateE.activeTabId = 5 ∧
    cexC1StateE.currentTabId = 3 ∧
    (cexC1StateE.getCtrl 5).isSome = true ∧
    activeTabInvariant cexC1StateE = false := by
  refine ⟨?_, by rfl, by rfl, by rfl, by rfl, by rfl, by decide, by decide, by decide,
    by decide⟩
  exact Reachable.step cexC1StateD (.modeChange 5 .inactive)
    (Reachable.step cexC1StateC (.tabChange 3)
      (Reachable.step cexC1StateB (.modeChange 5 .active)
        (Reachable.step cexC1StateA (.tabUpdate 5 cexConnector .matched)
          (Reachable.step (TabWorker.initialState (some 3)) (.tabChange 5)
            (Reachable.init (some 3))))))

/-- **C1 (amended).**  The §4.3 invariant holds in every initial state and is
preserved (in every reachable state) by `processTabChange`,
`processTabRemove`, `processCommand`, `processMessage`, `processPortMessage`
and context-menu clicks; it is not preserved by
`processTabUpdate`/`tryToInjectConnector` or by
`processControlleModeChange`, the operations excluded by `preservingOp`. -/
theorem C1_amended_invariant :
    (∀ ct : Option Int, activeTabInvariant (TabWorker.initialState ct) = true) ∧
    (∀ (w : TabWorker) (op : Op), Reachable w → activeTabInvariant w = true →
      preservingOp op = true →
      activeTabInvariant (applyOp w op).fst = true) := by
  constructor
  · intro ct
    rfl
  · intro w op hr hinv hop
    have hwf := wf_reachable w hr
    cases op with
    | tabUpdate t conn res => simp [preservingOp] at hop
    | modeChange t m => simp [preservingOp] at hop
    | tabChange t => exact inv_processTabChange w t
    | tabRemove t => exact inv_processTabRemove w t hwf hinv
    | command cmd => exact inv_processCommand w cmd hwf hinv
    | message t ty d => exact inv_processMessage w t ty d hwf hinv
    | portMessage t ty d => exact inv_processPortMessage w t ty d hinv
    | menuClick idx =>
      simp only [applyOp]
      rcases hi : w.contextMenu.get? idx with _ | item
      · simp only [hi]
        exact hinv
      · simp only [hi]
        exact inv_clickMenuItem w item hinv

/-- Witness for `C1_amended_invariant` at a concrete reachable state and
operation. -/
theorem C1_amended_invariant_witness :
    activeTabInvariant (applyOp (TabWorker.initialState (some 0)) (.tabChange 2)).fst
      = true :=
  C1_amended_invariant.2 (TabWorker.initialState (some 0)) (.tabChange 2)
    (Reachable.init (some 0)) (by decide) (by decide)

/-! ## Claims C2 and C3: the `toggle-connector` command -/

/-- Concrete state for C2: one controller, in active mode, at tab 1, which is
both the current and the active tab. -/
def c2Ctrl : Controller :=
  { tabId := 1, connector := { id := 3, label := "ex" }, isEnabled := true,
    mode := .active, songData := 0, loved := false, userSongData := none,
    skipped := false, pageState := 0 }

def c2State : TabWorker :=
  { currentTabId := 1, activeTabId := 1, tabControllers := [(1, c2Ctrl)],
    contextMenu := [], browserAction := .reset, optionsStore := [],
    sentTabMessages := [], activatedConnectors := [], warnings := [] }

/-- **C2, code behaviour at the failing input.**  With a controller
resolvable (tab 1 is the active tab and holds a live controller),
`processCommand('toggle-connector')` throws: line 61 calls
`this.setControllerState`, a method the class does not define (the helper is
`setConnectorState`, line 509).  The claim's other scenario does hold: a tab
change to a controller-less tab while no tab has a controller completes
without an error. -/
theorem C2_toggle_connector_throws :
    (c2State.getCtrl c2State.activeTabId).isSome = true ∧
    (c2State.processCommand "toggle-connector").snd
      = .error (.typeError "this.setControllerState is not a function") ∧
    ((TabWorker.initialState (some 4)).processTabChange 9).snd = .ok () :=
  ⟨by decide, by rfl, by rfl⟩

/-- Concrete state for C3: one enabled controller at tab 1 (the active tab),
with an empty connector-enabled settings store. -/
def c3Ctrl : Controller :=
  { tabId := 1, connector := { id := 4, label := "ex3" }, isEnabled := true,
    mode := .active, songData := 0, loved := false, userSongData := none,
    skipped := false, pageState := 0 }

def c3State : TabWorker :=
  { currentTabId := 1, activeTabId := 1, tabControllers := [(1, c3Ctrl)],
    contextMenu := [], browserAction := .reset, optionsStore := [],
    sentTabMessages := [], activatedConnectors := [], warnings := [] }

/-- **C3, code behaviour at the failing input.**
`processCommand('toggle-connector')` leaves the whole state unchanged and
throws a TypeError: the controller's enabled flag is not flipped and nothing
is persisted to the settings store, because line 61 calls the undefined
`this.setControllerState` instead of `setConnectorState`. -/
theorem C3_toggle_connector_no_flip :
    c3State.processCommand "toggle-connector"
      = (c3State, .error (.typeError "this.setControllerState is not a function")) ∧
    ((c3State.processCommand "toggle-connector").fst.getCtrl 1).any
        (fun c => c.isEnabled) = true ∧
    (c3State.processCommand "toggle-connector").fst.optionsStore = [] :=
  ⟨by rfl, by decide, by rfl⟩

/-! ## Claim C4 -/

/-- The state over which the §4.3 re-election runs inside `processTabRemove`:
the removed tab's entry destroyed and `activeTabId` reset to `NO_TAB`. -/
def electionStateAfterRemove (w : TabWorker) (t : Int) : TabWorker :=
  { w.unloadController t with activeTabId := NO_TAB }

theorem findActiveTabId_ne_of_no_ctrl (w : TabWorker) (t : Int) (hwf : w.Wf)
    (hnone : w.getCtrl t = none) (ht : t ≠ NO_TAB) : w.findActiveTabId ≠ t := by
  rcases findActiveTabId_cases w hwf with h | ⟨c, hc, _⟩ | ⟨h, hsome⟩
  · rw [h]
    exact fun he => ht he.symm
  · intro he
    rw [he, hnone] at hc
    exact Option.noConfusion hc
  · rw [h]
    intro he
    rw [he, hnone] at hsome
    simp at hsome

/-- **C4.**  After `processTabRemove(t)` no controller entry exists for `t`;
and if `t` was the active tab, the new `activeTabId` is exactly the §4.3
election result over the remaining controllers and in particular is not the
removed tab.  (`t ≠ NO_TAB` excludes the sentinel, which is not a tab id.) -/
theorem C4_tabRemove_destroys_and_reelects (w : TabWorker) (t : Int)
    (hwf : w.Wf) (ht : t ≠ NO_TAB) :
    (w.processTabRemove t).fst.getCtrl t = none ∧
    (t = w.activeTabId →
      (w.processTabRemove t).fst.activeTabId
        = (electionStateAfterRemove w t).findActiveTabId ∧
      (w.processTabRemove t).fst.activeTabId ≠ t) := by
  have hwfE : (electionStateAfterRemove w t).Wf := wf_unloadController w t hwf
  have hnoneE : (electionStateAfterRemove w t).getCtrl t = none :=
    unloadController_getCtrl_self w t
  have hresult : (if (electionStateAfterRemove w t).findActiveTabId ≠ NO_TAB
      then (electionStateAfterRemove w t).findActiveTabId
      else (electionStateAfterRemove w t).activeTabId)
    = (electionStateAfterRemove w t).findActiveTabId := by
    by_cases he : (electionStateAfterRemove w t).findActiveTabId = NO_TAB
    · rw [he, if_neg (by simp)]
      rfl
    · simp [he]
  simp only [TabWorker.processTabRemove]
  split
  · show ((electionStateAfterRemove w t).updateLastActiveTab).fst.getCtrl t = none ∧
      (t = w.activeTabId →
        ((electionStateAfterRemove w t).updateLastActiveTab).fst.activeTabId
          = (electionStateAfterRemove w t).findActiveTabId ∧
        ((electionStateAfterRemove w t).updateLastActiveTab).fst.activeTabId ≠ t)
    constructor
    · unfold TabWorker.getCtrl
      rw [updateLastActiveTab_tabControllers]
      exact unloadController_getCtrl_self w t
    · intro _
      rw [updateLastActiveTab_activeTabId, hresult]
      exact ⟨rfl, findActiveTabId_ne_of_no_ctrl _ t hwfE hnoneE ht⟩
  · rename_i hcond
    refine ⟨unloadController_getCtrl_self w t, fun hta => absurd ?_ hcond⟩
    rw [unloadController_activeTabId]
    exact hta

/-! ## Claim C5 -/

/-- **C5.**  Sticky active tab: with tab `A` active (live controller in
active mode, `activeTabId = A`) and tab `B ≠ A` holding no controller,
`processTabChange B` sets `currentTabId` to `B`, leaves `activeTabId = A`
(`shouldUpdateBrowserAction` returns false in the post-change state), and
rebuilds `B`'s context menu as exactly one toggle item scoped to `A`'s
connector; no error is raised. -/
theorem C5_tabChange_sticky (w : TabWorker) (A B : Int) (ctrlA : Controller)
    (hA : w.getCtrl A = some ctrlA) (hact : isActiveMode ctrlA.mode = true)
    (hactive : w.activeTabId = A) (hAB : A ≠ B) (hB : w.getCtrl B = none) :
    (w.processTabChange B).fst.currentTabId = B ∧
    (w.processTabChange B).fst.activeTabId = A ∧
    TabWorker.shouldUpdateBrowserAction { w with currentTabId := B } B = false ∧
    (w.processTabChange B).fst.contextMenu
      = [MenuItem.toggleConnector B ctrlA.tabId ctrlA.connector.id
          ctrlA.connector.label (!ctrlA.isEnabled)] ∧
    (w.processTabChange B).snd = .ok () := by
  have hA' : ctrlLookup w.tabControllers A = some ctrlA := hA
  have hB' : ctrlLookup w.tabControllers B = none := hB
  have hACT : ((ctrlLookup w.tabControllers w.activeTabId).any
      fun c => isActiveMode c.mode) = true := by
    rw [hactive, hA']
    simpa using hact
  have hsu : TabWorker.shouldUpdateBrowserAction { w with currentTabId := B } B
      = false := by
    simp [TabWorker.shouldUpdateBrowserAction, TabWorker.getCtrl, hACT]
  have hne : ¬(w.activeTabId = B) := by
    rw [hactive]
    exact hAB
  have hmenu1 : (({ w with currentTabId := B } : TabWorker).updateContextMenu B).fst.contextMenu = [MenuItem.toggleConnector B ctrlA.tabId ctrlA.connector.id ctrlA.connector.label (!ctrlA.isEnabled)] := by
    simp [TabWorker.updateContextMenu, TabWorker.resetContextMenu, TabWorker.getCtrl,
      TabWorker.addToggleConnectorMenu, TabWorker.addToggleConnectorMenuSome,
      TabWorker.addContextMenuItem, Controller.getConnector, hA', hB', hactive, hne,
      hAB]
  have hmenu2 : (({ w with currentTabId := B } : TabWorker).updateContextMenu B).snd = .ok () := by
    simp [TabWorker.updateContextMenu, TabWorker.resetContextMenu, TabWorker.getCtrl,
      TabWorker.addToggleConnectorMenu, TabWorker.addToggleConnectorMenuSome,
      TabWorker.addContextMenuItem, Controller.getConnector, hA', hB', hactive, hne,
      hAB]
  simp only [TabWorker.processTabChange]
  rw [if_neg (by simp [hsu])]
  refine ⟨?_, ?_, hsu, hmenu1, hmenu2⟩
  · rw [updateContextMenu_currentTabId]
  · rw [updateContextMenu_activeTabId]
    exact hactive

/-! ## Claim C6 -/

/-- **C6.**  When exactly one controller entry is in active mode,
`findActiveTabId` returns its tab id, whatever `currentTabId` is. -/
theorem C6_unique_active_election (w : TabWorker) (k : Int) (c : Controller)
    (hwf : w.Wf) (hmem : (k, c) ∈ w.tabControllers)
    (hact : isActiveMode c.mode = true)
    (huniq : ∀ p ∈ w.tabControllers, isActiveMode p.2.mode = true → p.1 = k) :
    w.findActiveTabId = k := by
  by_cases h1 : ((w.getCtrl w.currentTabId).any fun c => isActiveMode c.mode) = true
  · obtain ⟨c1, hc1, ha1⟩ := (option_any_iff _ _).mp h1
    have hmem1 : (w.currentTabId, c1) ∈ w.tabControllers := ctrlLookup_mem _ _ _ hc1
    have hk := huniq (w.currentTabId, c1) hmem1 ha1
    simp only [TabWorker.findActiveTabId, h1, if_true]
    exact hk
  · rcases hfa : TabWorker.firstActiveCtrlTabId w.tabControllers with _ | t
    · exfalso
      have := firstActive_none _ hfa (k, c) hmem
      rw [hact] at this
      exact Bool.noConfusion this
    · obtain ⟨p, hp, hact2, hid⟩ := firstActive_spec _ _ hfa
      have hk := huniq p hp hact2
      have hkey := hwf.1 p hp
      simp only [TabWorker.findActiveTabId, h1, if_false, hfa]
      rw [← hid, hkey, hk]
      simp

/-! ## Claim C7 -/

/-- **C7.**  Menu de-duplication: when `tabId` and the (distinct) active tab
both hold controllers whose connectors share one connector id,
`updateContextMenu tabId` builds exactly one toggle item (for `tabId`'s own
controller), plus the disable-until-tab-closed item when enabled, and no
second toggle item for the active tab. -/
theorem C7_menu_dedup (w : TabWorker) (tabId : Int) (c ac : Controller)
    (hne : w.activeTabId ≠ tabId)
    (hc : w.getCtrl tabId = some c) (hac : w.getCtrl w.activeTabId = some ac)
    (hid : ac.connector.id = c.connector.id) :
    (w.updateContextMenu tabId).fst.contextMenu
      = MenuItem.toggleConnector tabId c.tabId c.connector.id c.connector.label
          (!c.isEnabled)
        :: (if c.isEnabled then
              [MenuItem.disableUntilTabClosed tabId c.tabId c.connector.label]
            else []) ∧
    ((w.updateContextMenu tabId).fst.contextMenu.countP
        (fun i => match i with
          | MenuItem.toggleConnector _ _ _ _ _ => true
          | _ => false)) = 1 ∧
    (w.updateContextMenu tabId).snd = .ok () := by
  have hc' : ctrlLookup w.tabControllers tabId = some c := hc
  have hac' : ctrlLookup w.tabControllers w.activeTabId = some ac := hac
  have hrun : w.updateContextMenu tabId
      = ({ w with contextMenu := MenuItem.toggleConnector tabId c.tabId c.connector.id c.connector.label (!c.isEnabled) :: (if c.isEnabled then [MenuItem.disableUntilTabClosed tabId c.tabId c.connector.label] else []) }, .ok ()) := by
    by_cases hen : c.isEnabled = true <;>
      simp [TabWorker.updateContextMenu, TabWorker.resetContextMenu,
        TabWorker.getCtrl, TabWorker.addToggleConnectorMenuSome,
        TabWorker.addDisableUntilTabClosedItem, TabWorker.addContextMenuItem,
        Controller.getConnector, hc', hac', hne, hid, hen]
  refine ⟨by rw [hrun], ?_, by rw [hrun]⟩
  rw [hrun]
  by_cases hen : c.isEnabled = true <;>
    simp [hen, List.countP_cons]

/-! ## Claim C8 -/

/-- **C8.**  `processMessage(tabId, 'REQUEST_ACTIVE_TABID', data)` returns
the current `activeTabId` for every tab id — also tabs with no controller —
without warning and without touching any state. -/
theorem C8_request_active_tabid (w : TabWorker) (tabId : Int) (data : MsgData) :
    w.processMessage tabId "REQUEST_ACTIVE_TABID" data
      = (w, .ok (some (.num w.activeTabId))) := by
  rfl

/-! ## Claim C9 -/

/-- **C9.**  `processPortMessage` never creates or removes a controller entry
and never changes `activeTabId` or `currentTabId`; unless the type is
`EVENT_STATE_CHANGED` and the tab holds a controller, the whole state is
untouched. -/
theorem C9_portMessage_frame (w : TabWorker) (tabId : Int) (type : String)
    (data : Nat) :
    (∀ k, ((w.processPortMessage tabId type data).getCtrl k).isSome
        = (w.getCtrl k).isSome) ∧
    (w.processPortMessage tabId type data).activeTabId = w.activeTabId ∧
    (w.processPortMessage tabId type data).currentTabId = w.currentTabId ∧
    (type ≠ "EVENT_STATE_CHANGED" ∨ w.getCtrl tabId = none →
      w.processPortMessage tabId type data = w) := by
  by_cases ht : type = "EVENT_STATE_CHANGED"
  · rcases hc : w.getCtrl tabId with _ | ctrl
    · have hw : w.processPortMessage tabId type data = w := by
        simp [TabWorker.processPortMessage, ht, hc]
      rw [hw]
      exact ⟨fun k => rfl, rfl, rfl, fun _ => rfl⟩
    · have hw : w.processPortMessage tabId type data
          = w.setCtrl tabId (ctrl.onStateChanged data) := by
        simp [TabWorker.processPortMessage, ht, hc]
      rw [hw]
      refine ⟨?_, rfl, rfl, ?_⟩
      · intro k
        show (ctrlLookup (ctrlInsert w.tabControllers tabId _) k).isSome = _
        rw [ctrlLookup_insert]
        by_cases hk : k = tabId
        · subst hk
          simp [hc]
        · rw [if_neg hk]
          rfl
      · intro hcase
        rcases hcase with h | h
        · exact absurd ht h
        · simp [hc] at h
  · have hw : w.processPortMessage tabId type data = w := by
      simp [TabWorker.processPortMessage, ht]
    rw [hw]
    exact ⟨fun k => rfl, rfl, rfl, fun _ => rfl⟩

/-! ## Claim C10 -/

/-- **C10.**  `processMessage(tabId, 'REQUEST_TOGGLE_LOVE', data)` returns
exactly `data.isLoved`, echoed from the request, for every controller and
every state — independent of the controller's love state after `toggleLove`
ran. -/
theorem C10_toggle_love_echo (w : TabWorker) (tabId : Int) (ctrl : Controller)
    (data : MsgData) (h : w.getCtrl tabId = some ctrl) :
    (w.processMessage tabId "REQUEST_TOGGLE_LOVE" data).snd
      = .ok (some (.boolean data.isLoved)) := by
  simp [TabWorker.processMessage, h]

/-! ## Concrete witness states -/

def sampleCtrlActive : Controller :=
  { tabId := 1, connector := { id := 3, label := "sa" }, isEnabled := true,
    mode := .active, songData := 0, loved := false, userSongData := none,
    skipped := false, pageState := 0 }

def sampleWorker : TabWorker :=
  { currentTabId := 2, activeTabId := 1, tabControllers := [(1, sampleCtrlActive)],
    contextMenu := [], browserAction := .reset, optionsStore := [],
    sentTabMessages := [], activatedConnectors := [], warnings := [] }

def sampleCtrlB : Controller :=
  { tabId := 2, connector := { id := 3, label := "sa" }, isEnabled := false,
    mode := .inactive, songData := 0, loved := false, userSongData := none,
    skipped := false, pageState := 0 }

def sampleWorker2 : TabWorker :=
  { currentTabId := 2, activeTabId := 1,
    tabControllers := [(1, sampleCtrlActive), (2, sampleCtrlB)],
    contextMenu := [], browserAction := .reset, optionsStore := [],
    sentTabMessages := [], activatedConnectors := [], warnings := [] }

/-- Witness for `C4_tabRemove_destroys_and_reelects` at a concrete state. -/
theorem C4_tabRemove_witness :
    (sampleWorker.processTabRemove 1).fst.getCtrl 1 = none ∧
    (sampleWorker.processTabRemove 1).fst.activeTabId ≠ 1 :=
  ⟨(C4_tabRemove_destroys_and_reelects sampleWorker 1 (by decide) (by decide)).1,
   ((C4_tabRemove_destroys_and_reelects sampleWorker 1 (by decide)
      (by decide)).2 (by decide)).2⟩

/-- Witness for `C5_tabChange_sticky` at a concrete state. -/
theorem C5_tabChange_witness :
    (sampleWorker.processTabChange 2).fst.activeTabId = 1 ∧
    (sampleWorker.processTabChange 2).fst.contextMenu
      = [MenuItem.toggleConnector 2 1 3 "sa" false] := by
  have h := C5_tabChange_sticky sampleWorker 1 2 sampleCtrlActive (by decide)
    (by decide) (by decide) (by decide) (by decide)
  exact ⟨h.2.1, h.2.2.2.1⟩

/-- Witness for `C6_unique_active_election` at a concrete state. -/
theorem C6_unique_active_witness : sampleWorker.findActiveTabId = 1 :=
  C6_unique_active_election sampleWorker 1 sampleCtrlActive (by decide) (by decide)
    (by decide) (by decide)

/-- Witness for `C7_menu_dedup` at a concrete state. -/
theorem C7_menu_dedup_witness :
    ((sampleWorker2.updateContextMenu 2).fst.contextMenu.countP
        (fun i => match i with
          | MenuItem.toggleConnector _ _ _ _ _ => true
          | _ => false)) = 1 :=
  (C7_menu_dedup sampleWorker2 2 sampleCtrlB sampleCtrlActive (by decide) (by decide)
    (by decide) (by decide)).2.1

/-- Witness for `C9_portMessage_frame` at a concrete state, exercising the
unchanged-state conclusion. -/
theorem C9_portMessage_witness :
    (TabWorker.initialState (some 1)).processPortMessage 2 "OTHER" 0
      = TabWorker.initialState (some 1) :=
  (C9_portMessage_frame (TabWorker.initialState (some 1)) 2 "OTHER" 0).2.2.2
    (Or.inl (by decide))

/-- Witness for `C10_toggle_love_echo` at a concrete state. -/
theorem C10_toggle_love_witness :
    (sampleWorker.processMessage 1 "REQUEST_TOGGLE_LOVE" ⟨true, 5⟩).snd
      = .ok (some (.boolean true)) :=
  C10_toggle_love_echo sampleWorker 1 sampleCtrlActive ⟨true, 5⟩ (by decide)
